import Mathlib

/-!
Verification of the flexmeasures-weather plugin core
(`flexmeasures_weather/utils/weather.py`) against its natural-language
specification.

The development shallowly embeds the two non-trivial parts of the module:

* the WeatherAPI normalizer `process_weatherapi_data` with its inner
  field-mapping function `map_weather_api_to_owm`, and
* the forecast assembler `save_forecasts_in_db` together with the cached
  sensor resolver `get_weather_sensor`.

Numbers are modelled as rationals (the Python code computes with floats; the
spec treats the unit conversions as exact arithmetic), timestamps as integers
(epoch seconds, with the host time utilities acting as the identity on the
instant), and Python dictionaries as association lists.  External
collaborators (the sensor registry lookup, the irradiance model, the clock
and the provider HTTP call) are parameters of an environment record, and the
side effects the claims talk about (resolver invocations, calls to
`save_to_db`, warnings) are made observable by threading explicit logs.
Exceptions are modelled as an `Option String` error component; a raised
exception aborts the remaining processing exactly where the Python `raise`
would.
-/

/-- One word-splitting step of the model of the Python `str.split()` used on
the condition text: whitespace separates words, empty pieces are dropped. -/
def splitWordsAux : List Char → List Char → List String
  | [], acc => if acc = [] then [] else [String.mk acc.reverse]
  | c :: cs, acc =>
    if c = ' ' ∨ c = '\t' ∨ c = '\n' ∨ c = '\r' then
      (if acc = [] then [] else [String.mk acc.reverse]) ++ splitWordsAux cs []
    else splitWordsAux cs (c :: acc)

/-- Model of Python `s.split()` (split on whitespace, no empty words). -/
def pySplit (s : String) : List String := splitWordsAux s.data []

/-- The `condition` sub-object of one WeatherAPI hourly entry. -/
structure WapiCondition where
  code : Int
  text : String
  icon : String
deriving DecidableEq

/-- One hourly entry of a WeatherAPI forecast day, with the fields read by
`map_weather_api_to_owm`. -/
structure WapiHour where
  time_epoch : Int
  temp_c : ℚ
  feelslike_c : ℚ
  pressure_mb : ℚ
  humidity : ℚ
  dewpoint_c : ℚ
  uv : ℚ
  cloud : ℚ
  vis_km : ℚ
  wind_kph : ℚ
  wind_degree : ℚ
  gust_kph : ℚ
  condition : WapiCondition
  chance_of_rain : ℚ
deriving DecidableEq

/-- One WeatherAPI forecast day: the object read as `data[i]["hour"]`. -/
structure WapiDay where
  hour : List WapiHour
deriving DecidableEq

/-- The weather description entry of an OpenWeatherMap-style hourly record. -/
structure OwmWeatherDesc where
  id : Int
  main : String
  description : String
  icon : String
deriving DecidableEq

/-- An OpenWeatherMap-style hourly record, the common shape both providers
are normalized to. -/
structure OwmEntry where
  dt : Int
  temp : ℚ
  feels_like : ℚ
  pressure : ℚ
  humidity : ℚ
  dew_point : ℚ
  uvi : ℚ
  clouds : ℚ
  visibility : ℚ
  wind_speed : ℚ
  wind_deg : ℚ
  wind_gust : ℚ
  weather : List OwmWeatherDesc
  pop : ℚ
deriving DecidableEq

/-- Embedding of the inner function `map_weather_api_to_owm` of
`process_weatherapi_data` (weather.py lines 73-106).  The only partial
operation is `condition["text"].split()[0]`: on a text without words the
Python code raises an IndexError, modelled by `none`. -/
def map_weather_api_to_owm (w : WapiHour) : Option OwmEntry :=
  match pySplit w.condition.text with
  | [] => none
  | firstWord :: _ =>
    some { dt := w.time_epoch
           temp := w.temp_c
           feels_like := w.feelslike_c
           pressure := w.pressure_mb
           humidity := w.humidity
           dew_point := w.dewpoint_c
           uvi := w.uv
           clouds := w.cloud
           visibility := w.vis_km * 1000
           wind_speed := w.wind_kph / 3.6
           wind_deg := w.wind_degree
           wind_gust := w.gust_kph / 3.6
           weather := [{ id := w.condition.code
                         main := firstWord
                         description := w.condition.text
                         icon := w.condition.icon }]
           pop := w.chance_of_rain / 100 }

/-- Model of a Python list comprehension over a fallible body: the first
raised exception aborts the whole comprehension. -/
def mapListOpt {α β : Type} (f : α → Option β) : List α → Option (List β)
  | [] => some []
  | a :: as =>
    match f a with
    | none => none
    | some b =>
      match mapListOpt f as with
      | none => none
      | some bs => some (b :: bs)

/-- Embedding of `process_weatherapi_data` (weather.py lines 50-109):
concatenate the three days of hourly entries, slice the 48-entry window
starting at the current hour, and field-map each entry.  Fewer than three
day objects raise an IndexError (`none`); extra day objects are ignored,
as in the source. -/
def process_weatherapi_data (data : List WapiDay) (hour_no : Nat) :
    Option (List OwmEntry) :=
  match data with
  | d0 :: d1 :: d2 :: _ =>
    mapListOpt map_weather_api_to_owm
      (((d0.hour ++ d1.hour ++ d2.hour).drop hour_no).take 48)
  | _ => none

/-- A registered sensor of the host platform, as far as the assembler reads
it: identity, name and configured event resolution. -/
structure Sensor where
  id : Nat
  name : String
  event_resolution : Int
deriving DecidableEq

/-- One sensor specification of the static mapping table (`sensor_specs`):
platform sensor name, provider response label, expected event resolution
and unit.  The table itself is a parameter of the run. -/
structure SensorSpec where
  fm_sensor_name : String
  weather_sensor_name : String
  event_resolution : Int
  unit : String
deriving DecidableEq

/-- One normalized forecast hour as the assembler reads it: the `dt`
timestamp plus the named value fields. -/
structure ForecastRecord where
  dt : Int
  fields : List (String × ℚ)
deriving DecidableEq

/-- The two data sources the assembler attaches to beliefs: the primary
provider source and the source for internally derived data. -/
inductive DataSource where
  | owm : DataSource
  | owmDerived : DataSource
deriving DecidableEq

/-- A timed belief record, as constructed in `save_forecasts_in_db`. -/
structure TimedBelief where
  event_start : Int
  belief_time : Int
  event_value : ℚ
  sensor : Sensor
  source : DataSource
deriving DecidableEq

/-- A location, as a latitude/longitude pair. -/
abbrev Loc : Type := ℚ × ℚ

/-- The external collaborators of the assembler: the nearest-sensor registry
lookup, the configured maximal degree distance, the server clock at the
moment a location is processed, the provider API call and the irradiance
model. -/
structure Env where
  find : Loc → Int → String → Option Sensor
  maxDist : Int
  serverNow : Loc → Int
  api : Loc → Int × List ForecastRecord
  computeIrradiance : ℚ → ℚ → Int → ℚ → ℚ

/-- First-match lookup in an association list keyed by strings: the model of
`d[k]` / `k in d` for the Python dictionaries in the assembler. -/
def alookup {β : Type} : List (String × β) → String → Option β
  | [], _ => none
  | (k, v) :: rest, n => if k = n then some v else alookup rest n

/-- The mutable state of one location iteration of `save_forecasts_in_db`:
the per-location sensor cache `weather_sensors`, the per-location belief
dictionary `db_forecasts`, the current `data_source` variable, plus the
observation logs (resolver invocations and warnings). -/
structure LocState where
  cache : List (String × Option Sensor)
  db : List (Sensor × List TimedBelief)
  source : DataSource
  calls : List (String × Loc)
  warns : List (String × Int)
deriving DecidableEq

/-- Model of `db_forecasts[weather_sensor].append(belief)` preceded by the
insertion of an empty list for an unseen sensor key (weather.py lines
270-271 and 288-296); dictionary keys keep insertion order. -/
def appendAssoc (db : List (Sensor × List TimedBelief)) (s : Sensor)
    (b : TimedBelief) : List (Sensor × List TimedBelief) :=
  match db with
  | [] => [(s, [b])]
  | (s0, bs) :: rest =>
    if s0 = s then (s0, bs ++ [b]) :: rest
    else (s0, bs) :: appendAssoc rest s b

/-- Result of one call of `get_weather_sensor`: the raised exception if any,
the sensor, the updated cache, and the resolver invocations made. -/
structure GWResult where
  err : Option String
  sensor : Option Sensor
  cache : List (String × Option Sensor)
  extra : List (String × Loc)
deriving DecidableEq

/-- Embedding of `get_weather_sensor` (weather.py lines 323-347): serve the
sensor from the per-location cache when present (negative results are
cached too), otherwise invoke `find_weather_sensor_by_location` once and
cache the answer; then raise if a found sensor has an event resolution
different from the specification. -/
def get_weather_sensor (env : Env) (spec : SensorSpec) (location : Loc)
    (cache : List (String × Option Sensor)) : GWResult :=
  match
    (match alookup cache spec.fm_sensor_name with
     | some w => ((w : Option Sensor), cache, ([] : List (String × Loc)))
     | none =>
       (env.find location env.maxDist spec.fm_sensor_name,
        cache ++ [(spec.fm_sensor_name,
                   env.find location env.maxDist spec.fm_sensor_name)],
        [(spec.fm_sensor_name, location)]))
  with
  | (some w, cache1, extra) =>
    if w.event_resolution ≠ spec.event_resolution then
      { err := some "unfitting event resolution", sensor := none,
        cache := cache1, extra := extra }
    else
      { err := none, sensor := some w, cache := cache1, extra := extra }
  | (none, cache1, extra) =>
    { err := none, sensor := none, cache := cache1, extra := extra }

/-- Embedding of the body of the inner `for sensor_specs in mapping` loop of
`save_forecasts_in_db` (weather.py lines 256-304): skip with a warning when
the provider label is absent, otherwise resolve the sensor (which may
raise), and append a belief; for the irradiance sensor the value is the
computed irradiance of the cloud-cover ratio and the `data_source` variable
is switched to the derived source. -/
def process_spec (env : Env) (location : Loc) (now : Int)
    (fc : ForecastRecord) (spec : SensorSpec) (st : LocState) :
    Option String × LocState :=
  match alookup fc.fields spec.weather_sensor_name with
  | none =>
    (none, { st with warns := st.warns ++ [(spec.weather_sensor_name, fc.dt)] })
  | some v =>
    match get_weather_sensor env spec location st.cache with
    | ⟨some e, _, cache1, extra⟩ =>
      (some e, { st with cache := cache1, calls := st.calls ++ extra })
    | ⟨none, none, cache1, extra⟩ =>
      (none, { st with cache := cache1, calls := st.calls ++ extra })
    | ⟨none, some w, cache1, extra⟩ =>
      if spec.fm_sensor_name = "irradiance" then
        (none,
         { cache := cache1
           db := appendAssoc st.db w
             { event_start := fc.dt, belief_time := now,
               event_value :=
                 env.computeIrradiance location.1 location.2 fc.dt (v / 100),
               sensor := w, source := DataSource.owmDerived }
           source := DataSource.owmDerived
           calls := st.calls ++ extra
           warns := st.warns })
      else
        (none,
         { cache := cache1
           db := appendAssoc st.db w
             { event_start := fc.dt, belief_time := now, event_value := v,
               sensor := w, source := st.source }
           source := st.source
           calls := st.calls ++ extra
           warns := st.warns })

/-- The inner sensor-specification loop of one forecast hour; a raised
exception aborts the rest of the loop. -/
def process_specs (env : Env) (location : Loc) (now : Int)
    (fc : ForecastRecord) :
    List SensorSpec → LocState → Option String × LocState
  | [], st => (none, st)
  | spec :: rest, st =>
    match process_spec env location now fc spec st with
    | (some e, st1) => (some e, st1)
    | (none, st1) => process_specs env location now fc rest st1

/-- The `for fc in forecasts` loop (weather.py lines 248-304): each hour
re-reads the primary data source into the `data_source` variable before
iterating the sensor specifications. -/
def process_hours (env : Env) (mapping : List SensorSpec) (location : Loc)
    (now : Int) :
    List ForecastRecord → LocState → Option String × LocState
  | [], st => (none, st)
  | fc :: rest, st =>
    match process_specs env location now fc mapping
        { st with source := DataSource.owm } with
    | (some e, st1) => (some e, st1)
    | (none, st1) => process_hours env mapping location now rest st1

/-- One iteration of the `for location in locations` loop: fresh
`weather_sensors` cache and fresh `db_forecasts`, `now` read from the server
clock before the provider call, then all forecast hours processed. -/
def process_location (env : Env) (mapping : List SensorSpec)
    (location : Loc) : Option String × LocState :=
  process_hours env mapping location (env.serverNow location)
    (env.api location).2
    { cache := [], db := [], source := DataSource.owm, calls := [], warns := [] }

/-- The whole locations loop.  Returns the raised exception if any, the
`db_forecasts` dictionary left over from the last processed location
(the Python save loop at lines 305-312 sits outside the locations loop and
reads exactly that loop variable; with no locations it is undefined), and
the accumulated resolver-invocation log. -/
def process_locations (env : Env) (mapping : List SensorSpec) :
    List Loc →
    Option String × Option (List (Sensor × List TimedBelief)) ×
      List (String × Loc)
  | [] => (none, none, [])
  | loc :: rest =>
    match process_location env mapping loc with
    | (some e, st) => (some e, none, st.calls)
    | (none, st) =>
      match process_locations env mapping rest with
      | (e, lastDb, calls) => (e, some (lastDb.getD st.db), st.calls ++ calls)

/-- The save loop (weather.py lines 305-312): for each sensor key in order,
raise on an empty batch, otherwise call `save_to_db` with the batch.
Returns the raised exception if any and the list of `save_to_db` calls
actually made before it. -/
def save_phase :
    List (Sensor × List TimedBelief) →
    Option String × List (Sensor × List TimedBelief)
  | [] => (none, [])
  | (s, bs) :: rest =>
    if bs = [] then
      (some "Nothing to put in the database was produced.", [])
    else
      match save_phase rest with
      | (e, saves) => (e, (s, bs) :: saves)

/-- Observable outcome of one run of `save_forecasts_in_db`: the exception
that propagated (if any), the `save_to_db` calls made, and the
`find_weather_sensor_by_location` invocations made. -/
structure RunResult where
  error : Option String
  saves : List (Sensor × List TimedBelief)
  resolverCalls : List (String × Loc)
deriving DecidableEq

/-- Embedding of `save_forecasts_in_db` (weather.py lines 215-321): process
every location, then run the save loop on the `db_forecasts` variable as it
is left after the locations loop, i.e. the dictionary of the last location
only; with an empty locations list the save loop reads an unassigned
variable (a Python NameError, modelled as an error with no saves). -/
def save_forecasts_in_db (env : Env) (mapping : List SensorSpec)
    (locations : List Loc) : RunResult :=
  match process_locations env mapping locations with
  | (some e, _, calls) => { error := some e, saves := [], resolverCalls := calls }
  | (none, none, calls) =>
    { error := some "NameError", saves := [], resolverCalls := calls }
  | (none, some db, calls) =>
    match save_phase db with
    | (e, saves) => { error := e, saves := saves, resolverCalls := calls }

/-- A well-formed WeatherAPI hourly entry used by the concrete fixtures. -/
def goodHour (t : Int) (txt : String) : WapiHour :=
  { time_epoch := t, temp_c := 20, feelslike_c := 19, pressure_mb := 1013,
    humidity := 80, dewpoint_c := 10, uv := 1, cloud := 50, vis_km := 10,
    wind_kph := 36, wind_degree := 180, gust_kph := 36,
    condition := { code := 1000, text := txt, icon := "i" },
    chance_of_rain := 50 }

/-- A fixture forecast day of 24 consecutive hourly entries. -/
def dayFrom (base : Int) : WapiDay :=
  ⟨(List.range 24).map (fun i => goodHour (base + i) ("Sunny"))⟩

/-- A fixture day whose first hourly entry has an empty condition text. -/
def badDayC2 : WapiDay :=
  ⟨goodHour 0 ("") :: (List.range 23).map (fun i => goodHour (1 + i) ("Sunny"))⟩

/-- Three-day fixture whose hour 0 has an empty condition text. -/
def c2data : List WapiDay := [badDayC2, dayFrom 24, dayFrom 48]

/-- A fixture day whose seventh hourly entry (global hour 30) has a
whitespace-only condition text. -/
def badDayC10 : WapiDay :=
  ⟨((List.range 6).map (fun i => goodHour (24 + i) ("Cloudy"))) ++
    (goodHour 30 ("  ") ::
      (List.range 17).map (fun i => goodHour (31 + i) ("Cloudy")))⟩

/-- Three-day fixture with a whitespace-only condition text inside the
48-entry window selected for hour index 7. -/
def c10data : List WapiDay := [dayFrom 0, badDayC10, dayFrom 48]

/-- The temperature sensor specification used by the assembler fixtures. -/
def specTempFix : SensorSpec :=
  { fm_sensor_name := "temperature", weather_sensor_name := "temp",
    event_resolution := 60, unit := "C" }

/-- The irradiance sensor specification used by the assembler fixtures. -/
def specIrrFix : SensorSpec :=
  { fm_sensor_name := "irradiance", weather_sensor_name := "clouds",
    event_resolution := 60, unit := "kW/m2" }

/-- Fixture sensors. -/
def sensorA : Sensor := { id := 1, name := "temperature A", event_resolution := 60 }

/-- Second fixture sensor, resolved for the second fixture location. -/
def sensorB : Sensor := { id := 2, name := "temperature B", event_resolution := 60 }

/-- Fixture locations. -/
def locA : Loc := (52, 4)

/-- Second fixture location. -/
def locB : Loc := (53, 6)

/-- A forecast hour carrying only the temperature label. -/
def fcTemp : ForecastRecord := { dt := 1000, fields := [("temp", 21)] }

/-- Environment for the C1 run: two locations resolving to two different
temperature sensors, one forecast hour each, matching resolutions. -/
def envC1 : Env :=
  { find := fun l _ _ => if l = locA then some sensorA else some sensorB
    maxDist := 2
    serverNow := fun _ => 500
    api := fun _ => (500, [fcTemp])
    computeIrradiance := fun _ _ _ _ => 7 }

/-- Fixture sensor for the C3 run. -/
def sensorC3 : Sensor := { id := 3, name := "temperature C", event_resolution := 60 }

/-- Environment for the C3 run: the server clock reads 100 while the
dispatcher-returned call timestamp is 200. -/
def envC3 : Env :=
  { find := fun _ _ _ => some sensorC3
    maxDist := 2
    serverNow := fun _ => 100
    api := fun _ => (200, [fcTemp])
    computeIrradiance := fun _ _ _ _ => 7 }

/-- Fixture irradiance sensor for the C5 run. -/
def sensorIrrC5 : Sensor := { id := 4, name := "irradiance", event_resolution := 60 }

/-- Fixture temperature sensor for the C5 run. -/
def sensorTempC5 : Sensor := { id := 5, name := "temperature", event_resolution := 60 }

/-- Environment for the C5 run: one forecast hour carrying both the cloud
cover and the temperature labels. -/
def envC5 : Env :=
  { find := fun _ _ n => if n = "irradiance" then some sensorIrrC5 else some sensorTempC5
    maxDist := 2
    serverNow := fun _ => 500
    api := fun _ => (500, [{ dt := 1000, fields := [("clouds", 50), ("temp", 21)] }])
    computeIrradiance := fun _ _ _ _ => 7 }

/-- Number of occurrences of a resolver-call pair in a call log. -/
def countPair (p : String × Loc) : List (String × Loc) → Nat
  | [] => 0
  | c :: rest => (if c = p then 1 else 0) + countPair p rest

/-- Environment for the C8 counterexample: the registry has no sensor, so
every resolution attempt is a fresh (cached-per-location) miss. -/
def envC8 : Env :=
  { find := fun _ _ _ => none
    maxDist := 2
    serverNow := fun _ => 500
    api := fun _ => (500, [fcTemp])
    computeIrradiance := fun _ _ _ _ => 7 }

/-- The fresh location state at the start of a location iteration. -/
def st0 : LocState :=
  { cache := [], db := [], source := DataSource.owm, calls := [], warns := [] }

/-- A forecast hour carrying both the cloud-cover and temperature labels. -/
def fcBoth : ForecastRecord :=
  { dt := 1000, fields := [("clouds", 50), ("temp", 21)] }

/-- Membership of a belief in a belief dictionary. -/
def BeliefIn (b : TimedBelief) (db : List (Sensor × List TimedBelief)) : Prop :=
  ∃ p ∈ db, b ∈ p.2

/-- Cache consistency: every cached answer is exactly what the resolver
returns for that name at this location and distance bound. -/
def CC (env : Env) (loc : Loc) (cache : List (String × Option Sensor)) : Prop :=
  ∀ n v, alookup cache n = some v → v = env.find loc env.maxDist n

/-- The per-location run invariant: every logged resolver call is tagged
with this location and is covered by the cache, logged call names are
pairwise distinct, and the cache is consistent with the resolver. -/
def RunInv (env : Env) (loc : Loc) (st : LocState) : Prop :=
  (∀ c ∈ st.calls, c.2 = loc ∧ (alookup st.cache c.1).isSome = true) ∧
  (st.calls.map Prod.fst).Nodup ∧ CC env loc st.cache

/-- A resolution mismatch reachable at a location: some forecast hour of
that location carries the field of a specification whose resolver answer
has the wrong event resolution. -/
def MismatchAt (env : Env) (mapping : List SensorSpec) (loc : Loc) : Prop :=
  ∃ fc ∈ (env.api loc).2, ∃ spec ∈ mapping, ∃ w : Sensor,
    (alookup fc.fields spec.weather_sensor_name).isSome = true ∧
    env.find loc env.maxDist spec.fm_sensor_name = some w ∧
    w.event_resolution ≠ spec.event_resolution

/-- Fixture sensor whose event resolution disagrees with the temperature
specification. -/
def sensorBadRes : Sensor :=
  { id := 9, name := "temperature bad", event_resolution := 15 }

/-- Environment for the C9 witness: the resolver returns a sensor whose
resolution (15) differs from the declared one (60). -/
def envC9 : Env :=
  { find := fun _ _ _ => some sensorBadRes
    maxDist := 2
    serverNow := fun _ => 500
    api := fun _ => (500, [fcTemp])
    computeIrradiance := fun _ _ _ _ => 7 }

/-- Claim C2, counterexample: a well-shaped three-day input (exactly 24
hourly entries per day, hour index 0 < 24) on which the normalizer does not
return a 48-entry list: the entry at window position 0 has an empty
condition text, so the field mapping raises instead (modelled by `none`). -/
theorem c2_counterexample :
    c2data.length = 3 ∧ (∀ d ∈ c2data, d.hour.length = 24) ∧ (0 : Nat) < 24 ∧
    process_weatherapi_data c2data 0 = none :=
  ⟨rfl, by decide, by decide, rfl⟩

/-- Claim C10: the normalizer is not total on well-shaped input.  On a
three-day input of 24 hourly entries per day whose global hour 30 (window
position 23 for hour index 7) has a whitespace-only condition text, taking
the first word of the split condition text fails, and the normalizer
returns no 48-entry list (the IndexError is modelled by `none`). -/
theorem c10_theorem :
    c10data.length = 3 ∧ (∀ d ∈ c10data, d.hour.length = 24) ∧
    (7 : Nat) < 24 ∧ pySplit ("  ") = [] ∧
    process_weatherapi_data c10data 7 = none :=
  ⟨rfl, by decide, by decide, rfl, rfl⟩

/-- Claim C1, evaluation at the failing input: processing location A does
accumulate a belief batch for its sensor, but the run over the two
locations A and B persists only the batch of the last location B — the
save loop sits outside the locations loop (weather.py line 305), so the
batch of location A is never passed to `save_to_db`, in contradiction with
one persisted batch per sensor per location.  The final two conjuncts check
the part of the claim the code does honour: an empty accumulated batch
raises before that batch is persisted. -/
theorem c1_code_bug_eval :
    (process_location envC1 [specTempFix] locA).2.db =
      [(sensorA, [⟨1000, 500, 21, sensorA, DataSource.owm⟩])] ∧
    (save_forecasts_in_db envC1 [specTempFix] [locA, locB]).error = none ∧
    (save_forecasts_in_db envC1 [specTempFix] [locA, locB]).saves =
      [(sensorB, [⟨1000, 500, 21, sensorB, DataSource.owm⟩])] ∧
    (save_phase [(sensorA, [])]).1.isSome = true ∧
    (save_phase [(sensorA, [])]).2 = [] :=
  ⟨by decide, by decide, by decide, rfl, rfl⟩

/-- Claim C3, counterexample: the persisted belief carries belief time 100,
the server time captured before the API call, while the timestamp returned
by the dispatcher is 200 — so the stored belief time is not the
dispatcher-returned call time. -/
theorem c3_counterexample :
    (save_forecasts_in_db envC3 [specTempFix] [locA]).saves =
      [(sensorC3, [⟨1000, 100, 21, sensorC3, DataSource.owm⟩])] ∧
    (envC3.api locA).1 = 200 ∧ (100 : Int) ≠ 200 :=
  ⟨by decide, rfl, by decide⟩

/-- Claim C5, counterexample: with the irradiance specification placed
before the temperature specification in the mapping, the temperature belief
of the same forecast hour is stored with the derived data source — the
`data_source` variable mutated by the irradiance branch is not restored
within the hour — contradicting that non-irradiance beliefs always carry
the primary provider source. -/
theorem c5_counterexample :
    (save_forecasts_in_db envC5 [specIrrFix, specTempFix] [locA]).error = none ∧
    (save_forecasts_in_db envC5 [specIrrFix, specTempFix] [locA]).saves.map
        (fun p => (p.1.name, p.2.map TimedBelief.source)) =
      [("irradiance", [DataSource.owmDerived]),
       ("temperature", [DataSource.owmDerived])] :=
  ⟨by decide, by decide⟩

/-- Claim C8, counterexample: the sensor cache is created afresh inside the
locations loop (weather.py line 231), so a run whose locations list repeats
the same location invokes the resolver twice for the same
(sensor name, location) pair. -/
theorem c8_counterexample :
    countPair (("temperature", locA))
      (save_forecasts_in_db envC8 [specTempFix] [locA, locA]).resolverCalls = 2 :=
  by decide

/-- Claim C6: for every hourly entry whose condition text has at least one
word, the field mapping succeeds and the unit conversions are exactly the
stated arithmetic: visibility is vis_km times 1000, wind speed and gust are
the kph values divided by 3.6, and the precipitation probability is the
percent chance divided by 100. -/
theorem c6_theorem (w : WapiHour) (h : pySplit w.condition.text ≠ []) :
    ∃ o, map_weather_api_to_owm w = some o ∧
      o.visibility = w.vis_km * 1000 ∧
      o.wind_speed = w.wind_kph / 3.6 ∧
      o.wind_gust = w.gust_kph / 3.6 ∧
      o.pop = w.chance_of_rain / 100 := by
  cases hs : pySplit w.condition.text with
  | nil => exact absurd hs h
  | cons a as =>
    simp only [map_weather_api_to_owm, hs]
    exact ⟨_, rfl, rfl, rfl, rfl, rfl⟩

/-- Witness for C6 at the spec examples: 10 km visibility gives 10000 m,
36 kph wind and gust give 10 m/s, a 50 percent rain chance gives 1/2. -/
theorem c6_witness :
    ∃ o, map_weather_api_to_owm (goodHour 1 ("Sunny")) = some o ∧
      o.visibility = 10000 ∧ o.wind_speed = 10 ∧ o.wind_gust = 10 ∧
      o.pop = 1 / 2 := by
  obtain ⟨o, ho, h1, h2, h3, h4⟩ := c6_theorem (goodHour 1 ("Sunny")) (by decide)
  refine ⟨o, ho, ?_, ?_, ?_, ?_⟩
  · rw [h1]; norm_num [goodHour]
  · rw [h2]; norm_num [goodHour]
  · rw [h3]; norm_num [goodHour]
  · rw [h4]; norm_num [goodHour]

/-- Claim C7: when the provider label of a sensor specification is absent
from the forecast hour, the step appends no belief and raises nothing — the
state is unchanged except for the recorded warning — and the loop continues
with the remaining specifications from that state. -/
theorem c7_theorem (env : Env) (location : Loc) (now : Int)
    (fc : ForecastRecord) (spec : SensorSpec) (rest : List SensorSpec)
    (st : LocState)
    (hmiss : alookup fc.fields spec.weather_sensor_name = none) :
    process_spec env location now fc spec st =
      (none, { st with warns := st.warns ++ [(spec.weather_sensor_name, fc.dt)] }) ∧
    process_specs env location now fc (spec :: rest) st =
      process_specs env location now fc rest
        { st with warns := st.warns ++ [(spec.weather_sensor_name, fc.dt)] } := by
  have h1 : process_spec env location now fc spec st =
      (none, { st with warns := st.warns ++ [(spec.weather_sensor_name, fc.dt)] }) := by
    unfold process_spec
    rw [hmiss]
  exact ⟨h1, by rw [process_specs, h1]⟩

/-- Witness for C7: the forecast hour carries only the temperature label, so
the irradiance specification is skipped with a warning and processing
continues with the temperature specification. -/
theorem c7_witness :
    process_spec envC1 locA 500 fcTemp specIrrFix st0 =
      (none, { st0 with warns := st0.warns ++ [(specIrrFix.weather_sensor_name, fcTemp.dt)] }) ∧
    process_specs envC1 locA 500 fcTemp (specIrrFix :: [specTempFix]) st0 =
      process_specs envC1 locA 500 fcTemp [specTempFix]
        { st0 with warns := st0.warns ++ [(specIrrFix.weather_sensor_name, fcTemp.dt)] } :=
  c7_theorem envC1 locA 500 fcTemp specIrrFix [specTempFix] st0 (by decide)

/-- Claim C4: when the irradiance specification finds its provider field and
a sensor is resolved, the belief appended in that step carries the derived
data source and the irradiance computed from the cloud-cover ratio (the
provider percentage divided by 100), not the raw provider value; the
`data_source` variable is left switched to the derived source. -/
theorem c4_theorem (env : Env) (location : Loc) (now : Int)
    (fc : ForecastRecord) (spec : SensorSpec) (st : LocState) (v : ℚ)
    (w : Sensor) (cache1 : List (String × Option Sensor))
    (extra : List (String × Loc))
    (hirr : spec.fm_sensor_name = "irradiance")
    (hv : alookup fc.fields spec.weather_sensor_name = some v)
    (hw : get_weather_sensor env spec location st.cache =
      { err := none, sensor := some w, cache := cache1, extra := extra }) :
    process_spec env location now fc spec st =
      (none,
       { cache := cache1
         db := appendAssoc st.db w
           { event_start := fc.dt, belief_time := now,
             event_value :=
               env.computeIrradiance location.1 location.2 fc.dt (v / 100),
             sensor := w, source := DataSource.owmDerived }
         source := DataSource.owmDerived
         calls := st.calls ++ extra
         warns := st.warns }) := by
  unfold process_spec
  rw [hv, hw]
  simp [hirr]

/-- Witness for C4: concrete irradiance step with a 50 percent cloud cover
field. -/
theorem c4_witness :
    process_spec envC5 locA 500 fcBoth specIrrFix st0 =
      (none,
       { cache := [(specIrrFix.fm_sensor_name, some sensorIrrC5)]
         db := appendAssoc st0.db sensorIrrC5
           { event_start := fcBoth.dt, belief_time := 500,
             event_value :=
               envC5.computeIrradiance locA.1 locA.2 fcBoth.dt (50 / 100),
             sensor := sensorIrrC5, source := DataSource.owmDerived }
         source := DataSource.owmDerived
         calls := st0.calls ++ [(specIrrFix.fm_sensor_name, locA)]
         warns := st0.warns }) :=
  c4_theorem envC5 locA 500 fcBoth specIrrFix st0 50 sensorIrrC5
    [(specIrrFix.fm_sensor_name, some sensorIrrC5)]
    [(specIrrFix.fm_sensor_name, locA)] (by decide) (by decide) (by decide)

/-- Claim C5, amended: a non-irradiance specification whose provider field
is present and whose sensor resolves appends a belief carrying whatever the
`data_source` variable currently holds; in particular it carries the
primary provider source exactly when the variable still holds the primary
source — i.e. when no irradiance specification with a present field and a
resolved sensor preceded it within the same forecast hour (the variable is
re-read from the primary source at the start of every hour). -/
theorem c5_theorem (env : Env) (location : Loc) (now : Int)
    (fc : ForecastRecord) (spec : SensorSpec) (st : LocState) (v : ℚ)
    (w : Sensor) (cache1 : List (String × Option Sensor))
    (extra : List (String × Loc))
    (hni : spec.fm_sensor_name ≠ "irradiance")
    (hsrc : st.source = DataSource.owm)
    (hv : alookup fc.fields spec.weather_sensor_name = some v)
    (hw : get_weather_sensor env spec location st.cache =
      { err := none, sensor := some w, cache := cache1, extra := extra }) :
    process_spec env location now fc spec st =
      (none,
       { cache := cache1
         db := appendAssoc st.db w
           { event_start := fc.dt, belief_time := now, event_value := v,
             sensor := w, source := DataSource.owm }
         source := DataSource.owm
         calls := st.calls ++ extra
         warns := st.warns }) := by
  unfold process_spec
  rw [hv, hw]
  simp [hni, hsrc]

/-- Witness for the amended C5: a temperature step taken while the
`data_source` variable still holds the primary source. -/
theorem c5_witness :
    process_spec envC5 locA 500 fcBoth specTempFix st0 =
      (none,
       { cache := [(specTempFix.fm_sensor_name, some sensorTempC5)]
         db := appendAssoc st0.db sensorTempC5
           { event_start := fcBoth.dt, belief_time := 500, event_value := 21,
             sensor := sensorTempC5, source := DataSource.owm }
         source := DataSource.owm
         calls := st0.calls ++ [(specTempFix.fm_sensor_name, locA)]
         warns := st0.warns }) :=
  c5_theorem envC5 locA 500 fcBoth specTempFix st0 21 sensorTempC5
    [(specTempFix.fm_sensor_name, some sensorTempC5)]
    [(specTempFix.fm_sensor_name, locA)] (by decide) (by decide) (by decide)
    (by decide)

/-- A belief found after an `appendAssoc` was either there before or is the
appended one. -/
theorem beliefIn_appendAssoc {b : TimedBelief} {s : Sensor} {nb : TimedBelief} :
    ∀ {db : List (Sensor × List TimedBelief)},
      BeliefIn b (appendAssoc db s nb) → BeliefIn b db ∨ b = nb := by
  intro db
  induction db with
  | nil =>
    intro h
    rcases h with ⟨p, hp, hb⟩
    simp only [appendAssoc, List.mem_singleton] at hp
    subst hp
    simp only [List.mem_singleton] at hb
    exact Or.inr hb
  | cons hd tl ih =>
    obtain ⟨s0, bs⟩ := hd
    intro h
    rcases h with ⟨p, hp, hb⟩
    by_cases hs : s0 = s
    · rw [appendAssoc, if_pos hs] at hp
      rcases List.mem_cons.mp hp with heq | htl
      · subst heq
        rcases List.mem_append.mp hb with hbs | hnb
        · exact Or.inl ⟨(s0, bs), List.mem_cons_self _ _, hbs⟩
        · exact Or.inr (List.mem_singleton.mp hnb)
      · exact Or.inl ⟨p, List.mem_cons_of_mem _ htl, hb⟩
    · rw [appendAssoc, if_neg hs] at hp
      rcases List.mem_cons.mp hp with heq | htl
      · subst heq
        exact Or.inl ⟨(s0, bs), List.mem_cons_self _ _, hb⟩
      · rcases ih ⟨p, htl, hb⟩ with h1 | h1
        · rcases h1 with ⟨q, hq, hbq⟩
          exact Or.inl ⟨q, List.mem_cons_of_mem _ hq, hbq⟩
        · exact Or.inr h1

/-- `process_spec` equation: absent provider label. -/
theorem process_spec_eq_miss (env : Env) (location : Loc) (now : Int)
    (fc : ForecastRecord) (spec : SensorSpec) (st : LocState)
    (hmiss : alookup fc.fields spec.weather_sensor_name = none) :
    process_spec env location now fc spec st =
      (none, { st with warns := st.warns ++ [(spec.weather_sensor_name, fc.dt)] }) := by
  unfold process_spec
  rw [hmiss]

/-- `process_spec` equation: the resolver raised. -/
theorem process_spec_eq_err (env : Env) (location : Loc) (now : Int)
    (fc : ForecastRecord) (spec : SensorSpec) (st : LocState) (v : ℚ)
    (e : String) (ws : Option Sensor) (cache1 : List (String × Option Sensor))
    (extra : List (String × Loc))
    (hv : alookup fc.fields spec.weather_sensor_name = some v)
    (hw : get_weather_sensor env spec location st.cache =
      { err := some e, sensor := ws, cache := cache1, extra := extra }) :
    process_spec env location now fc spec st =
      (some e, { st with cache := cache1, calls := st.calls ++ extra }) := by
  unfold process_spec
  rw [hv, hw]

/-- `process_spec` equation: no sensor found. -/
theorem process_spec_eq_nosensor (env : Env) (location : Loc) (now : Int)
    (fc : ForecastRecord) (spec : SensorSpec) (st : LocState) (v : ℚ)
    (cache1 : List (String × Option Sensor)) (extra : List (String × Loc))
    (hv : alookup fc.fields spec.weather_sensor_name = some v)
    (hw : get_weather_sensor env spec location st.cache =
      { err := none, sensor := none, cache := cache1, extra := extra }) :
    process_spec env location now fc spec st =
      (none, { st with cache := cache1, calls := st.calls ++ extra }) := by
  unfold process_spec
  rw [hv, hw]

/-- `process_spec` equation: irradiance with a resolved sensor. -/
theorem process_spec_eq_irr (env : Env) (location : Loc) (now : Int)
    (fc : ForecastRecord) (spec : SensorSpec) (st : LocState) (v : ℚ)
    (w : Sensor) (cache1 : List (String × Option Sensor))
    (extra : List (String × Loc))
    (hirr : spec.fm_sensor_name = "irradiance")
    (hv : alookup fc.fields spec.weather_sensor_name = some v)
    (hw : get_weather_sensor env spec location st.cache =
      { err := none, sensor := some w, cache := cache1, extra := extra }) :
    process_spec env location now fc spec st =
      (none,
       { cache := cache1
         db := appendAssoc st.db w
           { event_start := fc.dt, belief_time := now,
             event_value :=
               env.computeIrradiance location.1 location.2 fc.dt (v / 100),
             sensor := w, source := DataSource.owmDerived }
         source := DataSource.owmDerived
         calls := st.calls ++ extra
         warns := st.warns }) := by
  unfold process_spec
  rw [hv, hw]
  simp [hirr]

/-- `process_spec` equation: non-irradiance with a resolved sensor. -/
theorem process_spec_eq_plain (env : Env) (location : Loc) (now : Int)
    (fc : ForecastRecord) (spec : SensorSpec) (st : LocState) (v : ℚ)
    (w : Sensor) (cache1 : List (String × Option Sensor))
    (extra : List (String × Loc))
    (hni : spec.fm_sensor_name ≠ "irradiance")
    (hv : alookup fc.fields spec.weather_sensor_name = some v)
    (hw : get_weather_sensor env spec location st.cache =
      { err := none, sensor := some w, cache := cache1, extra := extra }) :
    process_spec env location now fc spec st =
      (none,
       { cache := cache1
         db := appendAssoc st.db w
           { event_start := fc.dt, belief_time := now, event_value := v,
             sensor := w, source := st.source }
         source := st.source
         calls := st.calls ++ extra
         warns := st.warns }) := by
  unfold process_spec
  rw [hv, hw]
  simp [hni]

/-- Every belief present after one `process_spec` step was either already
accumulated or carries the `now` timestamp as its belief time. -/
theorem process_spec_belief_time (env : Env) (location : Loc) (now : Int)
    (fc : ForecastRecord) (spec : SensorSpec) (st : LocState) (b : TimedBelief)
    (h : BeliefIn b (process_spec env location now fc spec st).2.db) :
    BeliefIn b st.db ∨ b.belief_time = now := by
  cases hv : alookup fc.fields spec.weather_sensor_name with
  | none =>
    rw [process_spec_eq_miss env location now fc spec st hv] at h
    exact Or.inl h
  | some v =>
    cases hg : get_weather_sensor env spec location st.cache with
    | mk err ws cache1 extra =>
      cases err with
      | some e =>
        rw [process_spec_eq_err env location now fc spec st v e ws cache1 extra hv hg] at h
        exact Or.inl h
      | none =>
        cases ws with
        | none =>
          rw [process_spec_eq_nosensor env location now fc spec st v cache1 extra hv hg] at h
          exact Or.inl h
        | some w =>
          by_cases hirr : spec.fm_sensor_name = "irradiance"
          · rw [process_spec_eq_irr env location now fc spec st v w cache1 extra hirr hv hg] at h
            rcases beliefIn_appendAssoc h with h1 | h1
            · exact Or.inl h1
            · right
              rw [h1]
          · rw [process_spec_eq_plain env location now fc spec st v w cache1 extra hirr hv hg] at h
            rcases beliefIn_appendAssoc h with h1 | h1
            · exact Or.inl h1
            · right
              rw [h1]

/-- Lift of the belief-time property over the sensor-specification loop. -/
theorem process_specs_belief_time (env : Env) (location : Loc) (now : Int)
    (fc : ForecastRecord) :
    ∀ (specs : List SensorSpec) (st : LocState) (b : TimedBelief),
      BeliefIn b (process_specs env location now fc specs st).2.db →
      BeliefIn b st.db ∨ b.belief_time = now
  | [], _, _, h => Or.inl h
  | spec :: rest, st, b, h => by
    unfold process_specs at h
    cases hps : process_spec env location now fc spec st with
    | mk err st1 =>
      rw [hps] at h
      cases err with
      | some e =>
        exact process_spec_belief_time env location now fc spec st b (by rw [hps]; exact h)
      | none =>
        rcases process_specs_belief_time env location now fc rest st1 b h with h1 | h1
        · exact process_spec_belief_time env location now fc spec st b (by rw [hps]; exact h1)
        · exact Or.inr h1

/-- Lift of the belief-time property over the forecast-hour loop. -/
theorem process_hours_belief_time (env : Env) (mapping : List SensorSpec)
    (location : Loc) (now : Int) :
    ∀ (fcs : List ForecastRecord) (st : LocState) (b : TimedBelief),
      BeliefIn b (process_hours env mapping location now fcs st).2.db →
      BeliefIn b st.db ∨ b.belief_time = now
  | [], _, _, h => Or.inl h
  | fc :: rest, st, b, h => by
    unfold process_hours at h
    cases hps : process_specs env location now fc mapping
        { st with source := DataSource.owm } with
    | mk err st1 =>
      rw [hps] at h
      cases err with
      | some e =>
        exact process_specs_belief_time env location now fc mapping
          { st with source := DataSource.owm } b (by rw [hps]; exact h)
      | none =>
        rcases process_hours_belief_time env mapping location now rest st1 b h with h1 | h1
        · exact process_specs_belief_time env location now fc mapping
            { st with source := DataSource.owm } b (by rw [hps]; exact h1)
        · exact Or.inr h1

/-- Claim C3, amended: every belief accumulated while processing a location
carries as belief time the server time captured just before the provider
API call for that location (the `now` of weather.py line 236), which is in
general not the timestamp returned by the dispatcher. -/
theorem c3_theorem (env : Env) (mapping : List SensorSpec) (location : Loc)
    (b : TimedBelief)
    (h : BeliefIn b (process_location env mapping location).2.db) :
    b.belief_time = env.serverNow location := by
  unfold process_location at h
  rcases process_hours_belief_time env mapping location (env.serverNow location)
      (env.api location).2 _ b h with h1 | h1
  · rcases h1 with ⟨p, hp, _⟩
    simp at hp
  · exact h1

/-- Witness for the amended C3: the belief produced by the C3 fixture run
carries belief time 100, the fixture server time. -/
theorem c3_witness :
    (⟨1000, 100, 21, sensorC3, DataSource.owm⟩ : TimedBelief).belief_time =
      envC3.serverNow locA :=
  c3_theorem envC3 [specTempFix] locA _ (by unfold BeliefIn; decide)

/-- When the body succeeds on every element, the comprehension model
succeeds, preserves length, and is pointwise the image of the input. -/
theorem mapListOpt_some {α β : Type} (f : α → Option β) :
    ∀ (l : List α), (∀ a ∈ l, f a ≠ none) →
      ∃ r, mapListOpt f l = some r ∧ r.length = l.length ∧
        ∀ i, i < l.length →
          ∃ a b, l[i]? = some a ∧ r[i]? = some b ∧ f a = some b
  | [], _ => ⟨[], rfl, rfl, fun i hi => absurd hi (by simp)⟩
  | a :: as, h => by
    have ha : f a ≠ none := h a (List.mem_cons_self a as)
    cases hfa : f a with
    | none => exact absurd hfa ha
    | some b =>
      rcases mapListOpt_some f as (fun x hx => h x (List.mem_cons_of_mem a hx)) with
        ⟨r, hr, hlen, hidx⟩
      refine ⟨b :: r, ?_, by simp [hlen], ?_⟩
      · unfold mapListOpt
        rw [hfa, hr]
      · intro i hi
        cases i with
        | zero => exact ⟨a, b, by simp, by simp, hfa⟩
        | succ n =>
          have hn : n < as.length := by simpa using hi
          rcases hidx n hn with ⟨x, y, hx, hy, hxy⟩
          refine ⟨x, y, ?_, ?_, hxy⟩
          · simpa using hx
          · simpa using hy

/-- Claim C2, amended: on a three-day input of 24 hourly entries per day
and an hour index below 24, and provided every entry of the selected
48-entry window maps without error (a nonempty condition text, see C10),
the normalizer returns exactly 48 entries, and its i-th entry is the
field-mapped image of entry h+i of the 72-entry concatenation of the three
days — in particular the chronological input order is preserved. -/
theorem c2_theorem (d0 d1 d2 : WapiDay) (h : Nat)
    (h0 : d0.hour.length = 24) (h1 : d1.hour.length = 24)
    (h2 : d2.hour.length = 24) (hh : h < 24)
    (hok : ∀ w ∈ ((d0.hour ++ d1.hour ++ d2.hour).drop h).take 48,
      map_weather_api_to_owm w ≠ none) :
    ∃ res, process_weatherapi_data [d0, d1, d2] h = some res ∧
      res.length = 48 ∧
      ∀ i, i < 48 →
        ∃ w o, (d0.hour ++ d1.hour ++ d2.hour)[h + i]? = some w ∧
          res[i]? = some o ∧ map_weather_api_to_owm w = some o := by
  have hclen : (d0.hour ++ d1.hour ++ d2.hour).length = 72 := by
    simp [h0, h1, h2]
  have hrel : (((d0.hour ++ d1.hour ++ d2.hour).drop h).take 48).length = 48 := by
    simp only [List.length_take, List.length_drop, hclen]
    omega
  rcases mapListOpt_some map_weather_api_to_owm _ hok with ⟨r, hr, hlen, hidx⟩
  refine ⟨r, ?_, by rw [hlen, hrel], ?_⟩
  · unfold process_weatherapi_data
    exact hr
  · intro i hi
    have hi2 : i < (((d0.hour ++ d1.hour ++ d2.hour).drop h).take 48).length := by
      rw [hrel]
      exact hi
    rcases hidx i hi2 with ⟨w, o, hw, ho, hmap⟩
    rw [List.getElem?_take, if_pos hi, List.getElem?_drop] at hw
    exact ⟨w, o, hw, ho, hmap⟩

/-- Witness for the amended C2: a fully well-formed three-day fixture at
hour index 5. -/
theorem c2_witness :
    ∃ res, process_weatherapi_data [dayFrom 0, dayFrom 24, dayFrom 48] 5 = some res ∧
      res.length = 48 ∧
      ∀ i, i < 48 →
        ∃ w o, ((dayFrom 0).hour ++ (dayFrom 24).hour ++ (dayFrom 48).hour)[5 + i]? = some w ∧
          res[i]? = some o ∧ map_weather_api_to_owm w = some o :=
  c2_theorem (dayFrom 0) (dayFrom 24) (dayFrom 48) 5 (by decide) (by decide)
    (by decide) (by decide) (by decide)

/-- A hit in the left part of an association list survives an append. -/
theorem alookup_append_some {β : Type} {l1 : List (String × β)}
    (l2 : List (String × β)) {n : String} {v : β}
    (h : alookup l1 n = some v) : alookup (l1 ++ l2) n = some v := by
  induction l1 with
  | nil => simp [alookup] at h
  | cons hd tl ih =>
    obtain ⟨k, w⟩ := hd
    rw [List.cons_append]
    simp only [alookup] at h ⊢
    by_cases hk : k = n
    · rw [if_pos hk] at h ⊢
      exact h
    · rw [if_neg hk] at h ⊢
      exact ih h

/-- A miss in the left part of an association list defers to the right. -/
theorem alookup_append_none {β : Type} {l1 : List (String × β)}
    (l2 : List (String × β)) {n : String}
    (h : alookup l1 n = none) : alookup (l1 ++ l2) n = alookup l2 n := by
  induction l1 with
  | nil => simp
  | cons hd tl ih =>
    obtain ⟨k, w⟩ := hd
    rw [List.cons_append]
    simp only [alookup] at h ⊢
    by_cases hk : k = n
    · rw [if_pos hk] at h
      exact absurd h (by simp)
    · rw [if_neg hk] at h ⊢
      exact ih h

/-- Lookup of a singleton association list at its own key. -/
theorem alookup_singleton_self {β : Type} (n : String) (v : β) :
    alookup [(n, v)] n = some v := by
  simp [alookup]

/-- Either `get_weather_sensor` hits the cache (no resolver call, cache
unchanged) or it misses (exactly one resolver call, whose answer is
appended to the cache). -/
theorem get_weather_sensor_cache (env : Env) (spec : SensorSpec) (loc : Loc)
    (cache : List (String × Option Sensor)) :
    ((get_weather_sensor env spec loc cache).extra = [] ∧
     (get_weather_sensor env spec loc cache).cache = cache) ∨
    ((get_weather_sensor env spec loc cache).extra = [(spec.fm_sensor_name, loc)] ∧
     alookup cache spec.fm_sensor_name = none ∧
     (get_weather_sensor env spec loc cache).cache =
       cache ++ [(spec.fm_sensor_name, env.find loc env.maxDist spec.fm_sensor_name)]) := by
  unfold get_weather_sensor
  cases hl : alookup cache spec.fm_sensor_name with
  | some ws =>
    left
    cases ws with
    | some w =>
      dsimp only
      by_cases hres : w.event_resolution ≠ spec.event_resolution
      · rw [if_pos hres]
        exact ⟨rfl, rfl⟩
      · rw [if_neg hres]
        exact ⟨rfl, rfl⟩
    | none => exact ⟨rfl, rfl⟩
  | none =>
    right
    cases hf : env.find loc env.maxDist spec.fm_sensor_name with
    | some w =>
      dsimp only
      by_cases hres : w.event_resolution ≠ spec.event_resolution
      · rw [if_pos hres]
        exact ⟨rfl, rfl, rfl⟩
      · rw [if_neg hres]
        exact ⟨rfl, rfl, rfl⟩
    | none => exact ⟨rfl, rfl, rfl⟩

/-- Appending a fresh resolver answer preserves cache consistency. -/
theorem cc_extend (env : Env) (loc : Loc)
    {cache : List (String × Option Sensor)} (hcc : CC env loc cache)
    (m : String) :
    CC env loc (cache ++ [(m, env.find loc env.maxDist m)]) := by
  intro n v hn
  cases hl : alookup cache n with
  | some v0 =>
    rw [alookup_append_some _ hl] at hn
    injection hn with hv
    rw [← hv]
    exact hcc n v0 hl
  | none =>
    rw [alookup_append_none _ hl] at hn
    simp only [alookup] at hn
    by_cases hm : m = n
    · rw [if_pos hm] at hn
      injection hn with hv
      rw [← hv, hm]
    · rw [if_neg hm] at hn
      exact absurd hn (by simp)

/-- `get_weather_sensor` preserves cache consistency. -/
theorem get_weather_sensor_cc (env : Env) (spec : SensorSpec) (loc : Loc)
    (cache : List (String × Option Sensor)) (hcc : CC env loc cache) :
    CC env loc (get_weather_sensor env spec loc cache).cache := by
  rcases get_weather_sensor_cache env spec loc cache with ⟨_, hc⟩ | ⟨_, _, hc⟩
  · rw [hc]
    exact hcc
  · rw [hc]
    exact cc_extend env loc hcc spec.fm_sensor_name

/-- One `process_spec` step either leaves cache and call log untouched or
moves them exactly as the embedded `get_weather_sensor` call does. -/
theorem process_spec_state (env : Env) (loc : Loc) (now : Int)
    (fc : ForecastRecord) (spec : SensorSpec) (st : LocState) :
    ((process_spec env loc now fc spec st).2.cache = st.cache ∧
     (process_spec env loc now fc spec st).2.calls = st.calls) ∨
    ((process_spec env loc now fc spec st).2.cache =
       (get_weather_sensor env spec loc st.cache).cache ∧
     (process_spec env loc now fc spec st).2.calls =
       st.calls ++ (get_weather_sensor env spec loc st.cache).extra) := by
  cases hv : alookup fc.fields spec.weather_sensor_name with
  | none =>
    left
    rw [process_spec_eq_miss env loc now fc spec st hv]
    exact ⟨rfl, rfl⟩
  | some v =>
    right
    cases hg : get_weather_sensor env spec loc st.cache with
    | mk err ws cache1 extra =>
      cases err with
      | some e =>
        rw [process_spec_eq_err env loc now fc spec st v e ws cache1 extra hv hg]
        exact ⟨rfl, rfl⟩
      | none =>
        cases ws with
        | none =>
          rw [process_spec_eq_nosensor env loc now fc spec st v cache1 extra hv hg]
          exact ⟨rfl, rfl⟩
        | some w =>
          by_cases hirr : spec.fm_sensor_name = "irradiance"
          · rw [process_spec_eq_irr env loc now fc spec st v w cache1 extra hirr hv hg]
            exact ⟨rfl, rfl⟩
          · rw [process_spec_eq_plain env loc now fc spec st v w cache1 extra hirr hv hg]
            exact ⟨rfl, rfl⟩

/-- `process_spec` preserves the run invariant. -/
theorem process_spec_runinv (env : Env) (loc : Loc) (now : Int)
    (fc : ForecastRecord) (spec : SensorSpec) (st : LocState)
    (h : RunInv env loc st) :
    RunInv env loc (process_spec env loc now fc spec st).2 := by
  obtain ⟨h1, h2, h3⟩ := h
  rcases process_spec_state env loc now fc spec st with ⟨hc, hl⟩ | ⟨hc, hl⟩
  · refine ⟨?_, ?_, ?_⟩
    · rw [hl, hc]
      exact h1
    · rw [hl]
      exact h2
    · rw [hc]
      exact h3
  · rcases get_weather_sensor_cache env spec loc st.cache with ⟨he, hcc⟩ | ⟨he, hmiss, hcc⟩
    · refine ⟨?_, ?_, ?_⟩
      · rw [hl, hc, he, hcc]
        simpa using h1
      · rw [hl, he]
        simpa using h2
      · rw [hc]
        exact get_weather_sensor_cc env spec loc st.cache h3
    · have hnotin : spec.fm_sensor_name ∉ st.calls.map Prod.fst := by
        intro hmem
        rcases List.mem_map.mp hmem with ⟨c, hcm, hcf⟩
        have h4 := (h1 c hcm).2
        rw [hcf, hmiss] at h4
        simp at h4
      refine ⟨?_, ?_, ?_⟩
      · rw [hl, hc, he, hcc]
        intro c hcm
        rcases List.mem_append.mp hcm with hm | hm
        · refine ⟨(h1 c hm).1, ?_⟩
          rcases Option.isSome_iff_exists.mp (h1 c hm).2 with ⟨v0, hv0⟩
          rw [alookup_append_some _ hv0]
          rfl
        · have hceq : c = (spec.fm_sensor_name, loc) := by simpa using hm
          subst hceq
          refine ⟨rfl, ?_⟩
          rw [alookup_append_none _ hmiss, alookup_singleton_self]
          rfl
      · rw [hl, he, List.map_append]
        have hmap : ([(spec.fm_sensor_name, loc)].map Prod.fst) =
            [spec.fm_sensor_name] := rfl
        rw [hmap]
        refine List.Nodup.append h2 (List.nodup_singleton _) ?_
        intro x hx hx2
        simp at hx2
        subst hx2
        exact hnotin hx
      · rw [hc]
        exact get_weather_sensor_cc env spec loc st.cache h3

/-- The sensor-specification loop preserves the run invariant. -/
theorem process_specs_runinv (env : Env) (loc : Loc) (now : Int)
    (fc : ForecastRecord) :
    ∀ (specs : List SensorSpec) (st : LocState), RunInv env loc st →
      RunInv env loc (process_specs env loc now fc specs st).2
  | [], _, h => h
  | spec :: rest, st, h => by
    unfold process_specs
    cases hps : process_spec env loc now fc spec st with
    | mk err st1 =>
      have h1 : RunInv env loc st1 := by
        have h2 := process_spec_runinv env loc now fc spec st h
        rw [hps] at h2
        exact h2
      cases err with
      | some e => exact h1
      | none => exact process_specs_runinv env loc now fc rest st1 h1

/-- The forecast-hour loop preserves the run invariant. -/
theorem process_hours_runinv (env : Env) (mapping : List SensorSpec) (loc : Loc)
    (now : Int) :
    ∀ (fcs : List ForecastRecord) (st : LocState), RunInv env loc st →
      RunInv env loc (process_hours env mapping loc now fcs st).2
  | [], _, h => h
  | fc :: rest, st, h => by
    unfold process_hours
    have hsrc : RunInv env loc { st with source := DataSource.owm } := h
    cases hps : process_specs env loc now fc mapping
        { st with source := DataSource.owm } with
    | mk err st1 =>
      have h1 : RunInv env loc st1 := by
        have h2 := process_specs_runinv env loc now fc mapping
          { st with source := DataSource.owm } hsrc
        rw [hps] at h2
        exact h2
      cases err with
      | some e => exact h1
      | none => exact process_hours_runinv env mapping loc now rest st1 h1

/-- The state left by one location iteration satisfies the run invariant. -/
theorem process_location_runinv (env : Env) (mapping : List SensorSpec)
    (loc : Loc) : RunInv env loc (process_location env mapping loc).2 := by
  unfold process_location
  refine process_hours_runinv env mapping loc (env.serverNow loc) (env.api loc).2 _
    ⟨?_, ?_, ?_⟩
  · intro c hc
    simp at hc
  · simp
  · intro n v hn
    simp [alookup] at hn

/-- Concatenation law for the call-pair counter. -/
theorem countPair_append (p : String × Loc) (l1 l2 : List (String × Loc)) :
    countPair p (l1 ++ l2) = countPair p l1 + countPair p l2 := by
  induction l1 with
  | nil => simp [countPair]
  | cons c rest ih =>
    simp [countPair, ih]
    omega

/-- A pair absent from a call log is counted zero times. -/
theorem countPair_eq_zero {p : String × Loc} {l : List (String × Loc)}
    (h : p ∉ l) : countPair p l = 0 := by
  induction l with
  | nil => rfl
  | cons c rest ih =>
    have hc : ¬(c = p) := fun he => h (by rw [← he]; exact List.mem_cons_self c rest)
    simp [countPair, hc]
    exact ih (fun hm => h (List.mem_cons_of_mem c hm))

/-- In a duplicate-free call log every pair is counted at most once. -/
theorem countPair_le_one_of_nodup {l : List (String × Loc)} (h : l.Nodup)
    (p : String × Loc) : countPair p l ≤ 1 := by
  induction l with
  | nil => simp [countPair]
  | cons c rest ih =>
    have hcnot : c ∉ rest := (List.nodup_cons.mp h).1
    have hrest : rest.Nodup := (List.nodup_cons.mp h).2
    by_cases hc : c = p
    · rw [← hc] at *
      have hz : countPair c rest = 0 := countPair_eq_zero hcnot
      simp [countPair, hz]
    · simp [countPair, hc]
      exact ih hrest

/-- Under the run invariant, every resolver-call pair is logged at most
once. -/
theorem calls_count_le_one (env : Env) (loc : Loc) (st : LocState)
    (h : RunInv env loc st) (p : String × Loc) : countPair p st.calls ≤ 1 :=
  countPair_le_one_of_nodup (h.2.1.of_map Prod.fst) p

/-- Over a run: every logged resolver call is tagged with one of the
processed locations, and with pairwise distinct locations every pair is
logged at most once. -/
theorem process_locations_calls (env : Env) (mapping : List SensorSpec) :
    ∀ (locs : List Loc), locs.Nodup →
      (∀ c ∈ (process_locations env mapping locs).2.2, c.2 ∈ locs) ∧
      (∀ p, countPair p (process_locations env mapping locs).2.2 ≤ 1)
  | [], _ =>
    ⟨fun c hc => absurd hc (by simp [process_locations]),
     fun p => by simp [process_locations, countPair]⟩
  | loc :: rest, hnd => by
    have hloc : loc ∉ rest := (List.nodup_cons.mp hnd).1
    have hndr : rest.Nodup := (List.nodup_cons.mp hnd).2
    unfold process_locations
    cases hpl : process_location env mapping loc with
    | mk err st =>
      have hinv : RunInv env loc st := by
        have h2 := process_location_runinv env mapping loc
        rw [hpl] at h2
        exact h2
      cases err with
      | some e =>
        refine ⟨?_, ?_⟩
        · intro c hc
          exact List.mem_cons.mpr (Or.inl ((hinv.1 c hc).1))
        · intro p
          exact calls_count_le_one env loc st hinv p
      | none =>
        cases hrec : process_locations env mapping rest with
        | mk e2 rest2 =>
          obtain ⟨db2, calls2⟩ := rest2
          have ih0 := process_locations_calls env mapping rest hndr
          rw [hrec] at ih0
          have ih : (∀ c ∈ calls2, c.2 ∈ rest) ∧ (∀ q, countPair q calls2 ≤ 1) := ih0
          refine ⟨?_, ?_⟩
          · show ∀ c ∈ st.calls ++ calls2, c.2 ∈ loc :: rest
            intro c hc
            rcases List.mem_append.mp hc with hm | hm
            · exact List.mem_cons.mpr (Or.inl ((hinv.1 c hm).1))
            · exact List.mem_cons.mpr (Or.inr (ih.1 c hm))
          · intro p
            show countPair p (st.calls ++ calls2) ≤ 1
            rw [countPair_append]
            by_cases hp : p.2 = loc
            · have hz : countPair p calls2 = 0 :=
                countPair_eq_zero (fun hmem => hloc (hp ▸ ih.1 p hmem))
              have h5 := calls_count_le_one env loc st hinv p
              omega
            · have hz : countPair p st.calls = 0 :=
                countPair_eq_zero (fun hmem => hp ((hinv.1 p hmem).1))
              have h5 := ih.2 p
              omega

/-- The resolver-call log of a run is the log of the locations loop,
whatever happens in the save phase. -/
theorem save_resolverCalls (env : Env) (mapping : List SensorSpec)
    (locations : List Loc) :
    (save_forecasts_in_db env mapping locations).resolverCalls =
      (process_locations env mapping locations).2.2 := by
  unfold save_forecasts_in_db
  cases hp : process_locations env mapping locations with
  | mk e rest2 =>
    obtain ⟨db, calls⟩ := rest2
    cases e with
    | some e0 => rfl
    | none =>
      cases db with
      | none => rfl
      | some d =>
        cases hs : save_phase d with
        | mk e2 saves => rfl

/-- Claim C8, amended: over a run whose locations are pairwise distinct,
`find_weather_sensor_by_location` is invoked at most once per
(sensor name, location) pair — the cache is per location (it is created
afresh inside the locations loop), so distinct locations never share
cache entries, while a repeated location resolves again. -/
theorem c8_theorem (env : Env) (mapping : List SensorSpec)
    (locations : List Loc) (hnd : locations.Nodup) (p : String × Loc) :
    countPair p (save_forecasts_in_db env mapping locations).resolverCalls ≤ 1 := by
  rw [save_resolverCalls]
  exact (process_locations_calls env mapping locations hnd).2 p

/-- Witness for the amended C8: two distinct locations, one sensor
specification. -/
theorem c8_witness :
    countPair (("temperature", locA))
      (save_forecasts_in_db envC8 [specTempFix] [locA, locB]).resolverCalls ≤ 1 :=
  c8_theorem envC8 [specTempFix] [locA, locB] (by decide) (("temperature", locA))

/-- With a consistent cache, a resolver answer whose event resolution does
not match the specification makes `get_weather_sensor` raise, whether the
answer comes fresh from the resolver or from the cache. -/
theorem get_weather_sensor_mismatch (env : Env) (spec : SensorSpec)
    (loc : Loc) (cache : List (String × Option Sensor)) (w : Sensor)
    (hcc : CC env loc cache)
    (hw : env.find loc env.maxDist spec.fm_sensor_name = some w)
    (hne : w.event_resolution ≠ spec.event_resolution) :
    (get_weather_sensor env spec loc cache).err.isSome = true := by
  unfold get_weather_sensor
  cases hl : alookup cache spec.fm_sensor_name with
  | none =>
    rw [hw]
    simp [hne]
  | some ws =>
    have hws : ws = env.find loc env.maxDist spec.fm_sensor_name := hcc _ _ hl
    rw [hw] at hws
    subst hws
    simp [hne]

/-- A `process_spec` step on a specification with a present field and a
mismatching resolver answer raises. -/
theorem process_spec_mismatch (env : Env) (loc : Loc) (now : Int)
    (fc : ForecastRecord) (spec : SensorSpec) (st : LocState) (w : Sensor)
    (hcc : CC env loc st.cache)
    (hf : (alookup fc.fields spec.weather_sensor_name).isSome = true)
    (hw : env.find loc env.maxDist spec.fm_sensor_name = some w)
    (hne : w.event_resolution ≠ spec.event_resolution) :
    (process_spec env loc now fc spec st).1.isSome = true := by
  rcases Option.isSome_iff_exists.mp hf with ⟨v, hv⟩
  have herr := get_weather_sensor_mismatch env spec loc st.cache w hcc hw hne
  cases hg : get_weather_sensor env spec loc st.cache with
  | mk err ws cache1 extra =>
    rw [hg] at herr
    cases err with
    | none => simp at herr
    | some e =>
      rw [process_spec_eq_err env loc now fc spec st v e ws cache1 extra hv hg]
      rfl

/-- `process_spec` preserves cache consistency. -/
theorem process_spec_cc (env : Env) (loc : Loc) (now : Int)
    (fc : ForecastRecord) (spec : SensorSpec) (st : LocState)
    (hcc : CC env loc st.cache) :
    CC env loc (process_spec env loc now fc spec st).2.cache := by
  rcases process_spec_state env loc now fc spec st with ⟨hc, _⟩ | ⟨hc, _⟩
  · rw [hc]
    exact hcc
  · rw [hc]
    exact get_weather_sensor_cc env spec loc st.cache hcc

/-- The sensor-specification loop preserves cache consistency. -/
theorem process_specs_cc (env : Env) (loc : Loc) (now : Int)
    (fc : ForecastRecord) :
    ∀ (specs : List SensorSpec) (st : LocState), CC env loc st.cache →
      CC env loc (process_specs env loc now fc specs st).2.cache
  | [], _, h => h
  | spec :: rest, st, h => by
    unfold process_specs
    cases hps : process_spec env loc now fc spec st with
    | mk err st1 =>
      have h1 : CC env loc st1.cache := by
        have h2 := process_spec_cc env loc now fc spec st h
        rw [hps] at h2
        exact h2
      cases err with
      | some e => exact h1
      | none => exact process_specs_cc env loc now fc rest st1 h1

/-- If some specification of the mapping has a present field in this hour
and a mismatching resolver answer, the sensor-specification loop raises. -/
theorem process_specs_mismatch (env : Env) (loc : Loc) (now : Int)
    (fc : ForecastRecord) :
    ∀ (specs : List SensorSpec) (st : LocState), CC env loc st.cache →
      (∃ spec ∈ specs, ∃ w : Sensor,
        (alookup fc.fields spec.weather_sensor_name).isSome = true ∧
        env.find loc env.maxDist spec.fm_sensor_name = some w ∧
        w.event_resolution ≠ spec.event_resolution) →
      (process_specs env loc now fc specs st).1.isSome = true
  | [], _, _, hex => by simp at hex
  | spec1 :: rest, st, hcc, hex => by
    unfold process_specs
    cases hps : process_spec env loc now fc spec1 st with
    | mk err st1 =>
      cases err with
      | some e => rfl
      | none =>
        rcases hex with ⟨spec, hmem, ww, hf, hw, hne⟩
        rcases List.mem_cons.mp hmem with heq | hmem2
        · subst heq
          have h3 := process_spec_mismatch env loc now fc spec st ww hcc hf hw hne
          rw [hps] at h3
          simp at h3
        · have h1 : CC env loc st1.cache := by
            have h2 := process_spec_cc env loc now fc spec1 st hcc
            rw [hps] at h2
            exact h2
          exact process_specs_mismatch env loc now fc rest st1 h1
            ⟨spec, hmem2, ww, hf, hw, hne⟩

/-- A run over one location raises whenever some forecast hour and
specification exhibit a resolution mismatch. -/
theorem process_hours_mismatch (env : Env) (mapping : List SensorSpec)
    (loc : Loc) (now : Int) :
    ∀ (fcs : List ForecastRecord) (st : LocState), CC env loc st.cache →
      (∃ fc ∈ fcs, ∃ spec ∈ mapping, ∃ w : Sensor,
        (alookup fc.fields spec.weather_sensor_name).isSome = true ∧
        env.find loc env.maxDist spec.fm_sensor_name = some w ∧
        w.event_resolution ≠ spec.event_resolution) →
      (process_hours env mapping loc now fcs st).1.isSome = true
  | [], _, _, hex => by simp at hex
  | fc1 :: rest, st, hcc, hex => by
    unfold process_hours
    cases hps : process_specs env loc now fc1 mapping
        { st with source := DataSource.owm } with
    | mk err st1 =>
      cases err with
      | some e => rfl
      | none =>
        rcases hex with ⟨fc, hmem, hrest⟩
        rcases List.mem_cons.mp hmem with heq | hmem2
        · subst heq
          have h3 := process_specs_mismatch env loc now fc mapping
            { st with source := DataSource.owm } hcc hrest
          rw [hps] at h3
          simp at h3
        · have h1 : CC env loc st1.cache := by
            have h2 := process_specs_cc env loc now fc1 mapping
              { st with source := DataSource.owm } hcc
            rw [hps] at h2
            exact h2
          exact process_hours_mismatch env mapping loc now rest st1 h1
            ⟨fc, hmem2, hrest⟩

/-- One location iteration raises under a reachable mismatch. -/
theorem process_location_mismatch (env : Env) (mapping : List SensorSpec)
    (loc : Loc) (h : MismatchAt env mapping loc) :
    (process_location env mapping loc).1.isSome = true := by
  unfold process_location
  refine process_hours_mismatch env mapping loc (env.serverNow loc)
    (env.api loc).2 _ ?_ h
  intro n v hn
  simp [alookup] at hn

/-- The locations loop raises under a mismatch reachable at any of its
locations. -/
theorem process_locations_mismatch (env : Env) (mapping : List SensorSpec) :
    ∀ (locs : List Loc), (∃ loc ∈ locs, MismatchAt env mapping loc) →
      (process_locations env mapping locs).1.isSome = true
  | [], hex => by simp at hex
  | loc1 :: rest, hex => by
    unfold process_locations
    cases hpl : process_location env mapping loc1 with
    | mk err st =>
      cases err with
      | some e => rfl
      | none =>
        rcases hex with ⟨loc, hmem, hm⟩
        rcases List.mem_cons.mp hmem with heq | hmem2
        · subst heq
          have h3 := process_location_mismatch env mapping loc hm
          rw [hpl] at h3
          simp at h3
        · cases hrec : process_locations env mapping rest with
          | mk e2 rest2 =>
            have h3 := process_locations_mismatch env mapping rest ⟨loc, hmem2, hm⟩
            rw [hrec] at h3
            obtain ⟨db2, calls2⟩ := rest2
            simpa using h3

/-- Claim C9: whenever some location of the run has a forecast hour and a
sensor specification whose present field leads to a resolver answer with a
mismatching event resolution, the run raises, and it does so before any
`save_to_db` call is made — the save loop only runs after the whole
locations loop, so the list of persistence calls of such a run is empty. -/
theorem c9_theorem (env : Env) (mapping : List SensorSpec)
    (locations : List Loc)
    (h : ∃ loc ∈ locations, MismatchAt env mapping loc) :
    (save_forecasts_in_db env mapping locations).error.isSome = true ∧
    (save_forecasts_in_db env mapping locations).saves = [] := by
  have herr := process_locations_mismatch env mapping locations h
  unfold save_forecasts_in_db
  cases hp : process_locations env mapping locations with
  | mk e rest2 =>
    obtain ⟨db, calls⟩ := rest2
    rw [hp] at herr
    cases e with
    | none => simp at herr
    | some e0 => exact ⟨rfl, rfl⟩

/-- Witness for C9: the mismatch run raises and performs no persistence
call. -/
theorem c9_witness :
    (save_forecasts_in_db envC9 [specTempFix] [locA]).error.isSome = true ∧
    (save_forecasts_in_db envC9 [specTempFix] [locA]).saves = [] :=
  c9_theorem envC9 [specTempFix] [locA]
    ⟨locA, by decide, fcTemp, by decide, specTempFix, by decide, sensorBadRes,
      by decide, by decide, by decide⟩
